import Mathlib

/-!
Shallow embedding of the Serenium package builder (src/serenium.py).

Python strings are modelled by Lean `String` (a wrapper around `List Char`);
Python `str.strip()` / `str.lower()` are modelled on the ASCII / explicit
Unicode-whitespace fragment actually exercised by the program's templates and
by the concrete inputs of the claims.  Filesystem effects are modelled as an
explicit trace of actions; stdin is modelled as a list of input lines.
-/

namespace Serenium

/-- Unicode code points stripped by Python `str.strip()` (characters `c` with
`c.isspace()` true). -/
def pySpaceCodes : List Nat :=
  [9, 10, 11, 12, 13, 28, 29, 30, 31, 32, 133, 160, 0x1680,
   0x2000, 0x2001, 0x2002, 0x2003, 0x2004, 0x2005, 0x2006, 0x2007,
   0x2008, 0x2009, 0x200a, 0x2028, 0x2029, 0x202f, 0x205f, 0x3000]

def pyIsSpace (c : Char) : Bool := pySpaceCodes.contains c.toNat

/-- Python `str.strip()` on the underlying character list: drop whitespace
from the front, then from the back. -/
def pyStripList (l : List Char) : List Char :=
  ((l.dropWhile pyIsSpace).reverse.dropWhile pyIsSpace).reverse

/-- Python `str.strip()`. -/
def pyStripStr (s : String) : String := ⟨pyStripList s.data⟩

/-- Python `s.strip().lower()` as used on interactive yes/no answers
(ASCII lowering, which covers the program's comparisons with "y"/"1"/"2"). -/
def pyStripLower (s : String) : String := ⟨(pyStripStr s).data.map Char.toLower⟩

/-- Python truthiness fallback `a or b` for strings. -/
def pyOr (a b : String) : String := if a = "" then b else a

/-- The characters removed by `sanitize_input`
(`dangerous_chars = ['\x00', ..., '\x05']` in the source). -/
def dangerous_chars : List Char := ['\x00', '\x01', '\x02', '\x03', '\x04', '\x05']

/-- `SereniumBuilder.sanitize_input`: empty in, empty out; otherwise each of
the six dangerous characters is removed by `str.replace(char, '')` in turn and
the result is stripped. -/
def sanitize_input (text : String) : String :=
  if text = "" then ""
  else pyStripStr ⟨dangerous_chars.foldl (fun t c => t.filter (fun d => d ≠ c)) text.data⟩

/-- A dynamically-typed Python return value (the validators return the
boolean `True` on success). -/
inductive PyVal where
  | bool (b : Bool)
  | str (s : String)
deriving DecidableEq, Repr

/-- `invalid_chars = set('!#$&*|;:"<>?/\\[]{}')` from `validate_package_name`. -/
def invalid_chars : List Char :=
  ['!', '#', '$', '&', '*', '|', ';', ':', '\"', '<', '>', '?', '/', '\\',
   '[', ']', '\x7b', '\x7d']

/-- `SereniumBuilder.validate_package_name`: raises `ValidationError` on the
listed conditions, otherwise returns the Python boolean `True`. -/
def validate_package_name (name : String) : Except String PyVal :=
  if name = "" then .error "Package name cannot be empty"
  else if name.length > 255 then .error "Package name too long (max 255 characters)"
  else if name.data.any (fun c => invalid_chars.contains c) then
    .error "Package name contains invalid characters"
  else if !(name.data.headI.isAlphanum) then
    .error "Package name must start with alphanumeric character"
  else if name.data.contains ' ' then .error "Package name cannot contain spaces"
  else .ok (.bool true)

def pyValidName (name : String) : Bool :=
  match validate_package_name name with
  | .ok _ => true
  | .error _ => false

/-- One-or-more digits at the front: `\d+` (greedy; digits never match `\.`,
so the regex `^\d+\.\d+\.\d+` is equivalent to this deterministic scan). -/
def dropDigitsFront : List Char → Option (List Char)
  | [] => none
  | c :: r => if c.isDigit then some (r.dropWhile Char.isDigit) else none

/-- `re.match(r'^\d+\.\d+\.\d+', version)` succeeds. -/
def versionPatternOk (l : List Char) : Bool :=
  match dropDigitsFront l with
  | some ('.' :: r1) =>
    match dropDigitsFront r1 with
    | some ('.' :: r2) => (dropDigitsFront r2).isSome
    | _ => false
  | _ => false

/-- `SereniumBuilder.validate_version` as a success predicate. -/
def validate_version_ok (version : String) : Bool :=
  version ≠ "" && versionPatternOk version.data

def emailLocalChar (c : Char) : Bool :=
  c.isAlphanum || c = '.' || c = '_' || c = '%' || c = '+' || c = '-'

def emailDomChar (c : Char) : Bool := c.isAlphanum || c = '.' || c = '-'

/-- Python `str.split(sep)` for a one-character separator, on the underlying
character list (`"".split(',') == ['']`, empty segments are kept). -/
def splitOnChar (sep : Char) : List Char → List (List Char)
  | [] => [[]]
  | c :: r =>
    match splitOnChar sep r with
    | [] => [[c]]
    | h :: t => if c = sep then [] :: h :: t else (c :: h) :: t

/-- Python `str.split(sep)` on strings, one-character separator. -/
def pySplit (sep : Char) (s : String) : List String :=
  (splitOnChar sep s.data).map fun l => ⟨l⟩

/-- The part of the email regex after `@`: `[a-zA-Z0-9.-]+\.[A-Za-z]{2,}$`,
checked by trying every split of the domain at a dot. -/
def emailDomainOk (rest : List Char) : Bool :=
  (rest.inits.zip rest.tails).any fun pr =>
    match pr.2 with
    | '.' :: tld => !pr.1.isEmpty && pr.1.all emailDomChar
        && decide (2 ≤ tld.length) && tld.all Char.isAlpha
    | _ => false

/-- `SereniumBuilder.validate_email` as a success predicate: empty is valid,
otherwise `^[a-zA-Z0-9._%+-]+@[a-zA-Z0-9.-]+\.[a-zA-Z]{2,}$` must match
(neither character class contains `@`, so exactly one `@` must occur). -/
def validate_email_ok (email : String) : Bool :=
  if email = "" then true
  else
    match pySplit '@' email with
    | [loc, domain] => !loc.isEmpty && loc.data.all emailLocalChar && emailDomainOk domain.data
    | _ => false

/-- The `PackageConfig` dataclass. -/
structure PackageConfig where
  name : String
  version : String
  description : String
  long_description : String
  is_metapackage : Bool
  tools : List String
  create_desktop : Bool
  desktop_name : String
  desktop_comment : String
  desktop_icon : String
  desktop_categories : String
  dependencies : List String
  menu_section : String
  maintainer : String
  email : String
  output_dir : String
deriving DecidableEq, Repr

/-- The dataclass field defaults. -/
def PackageConfig.default : PackageConfig :=
  { name := ""
    version := "1.0.0"
    description := ""
    long_description := ""
    is_metapackage := false
    tools := []
    create_desktop := false
    desktop_name := ""
    desktop_comment := ""
    desktop_icon := "applications-system"
    desktop_categories := "System"
    dependencies := []
    menu_section := "99-Misc"
    maintainer := "Serenium Team"
    email := "team@serenium.org"
    output_dir := "." }

/-! ## Input Collector (`get_user_input`)

The interactive path is modelled as a pure function of the list of raw stdin
lines.  Each retry loop consumes one line per attempt and re-prompts (i.e.
recurses on the remaining lines) until validation succeeds; running out of
lines yields `none`. -/

/-- Comma-separated list parsing used for tools and dependencies:
`[t.strip() for t in s.split(',') if t.strip()] if s else []`. -/
def parseCommaList (s : String) : List String :=
  if s = "" then []
  else ((pySplit ',' s).filter (fun t => pyStripStr t ≠ "")).map pyStripStr

/-- The package-name prompt loop: sanitize, validate, re-prompt on failure. -/
def askName : List String → Option (String × List String)
  | [] => none
  | line :: rest =>
    let name := sanitize_input line
    if pyValidName name then some (name, rest) else askName rest

/-- The version prompt loop (`input(...) or "1.0.0"`, sanitized, validated). -/
def askVersion : List String → Option (String × List String)
  | [] => none
  | line :: rest =>
    let version := sanitize_input (pyOr line "1.0.0")
    if validate_version_ok version then some (version, rest) else askVersion rest

/-- The package-type prompt loop: accepts stripped "1" or "2"; metapackage
iff the answer is "2". -/
def askType : List String → Option (Bool × List String)
  | [] => none
  | line :: rest =>
    let t := pyStripStr line
    if t = "1" || t = "2" then some (t = "2", rest) else askType rest

/-- The maintainer-email prompt loop (`input(...) or "team@serenium.org"`,
sanitized, validated). -/
def askEmail : List String → Option (String × List String)
  | [] => none
  | line :: rest =>
    let em := sanitize_input (pyOr line "team@serenium.org")
    if validate_email_ok em then some (em, rest) else askEmail rest

/-- The shared tail of `get_user_input`: dependencies, menu section,
maintainer and email prompts, filled into the partial record `c`. -/
def askFinal (c : PackageConfig) : List String → Option PackageConfig
  | depsLine :: menuLine :: maintLine :: rest =>
    (askEmail rest).map fun p =>
      { c with dependencies := parseCommaList (sanitize_input depsLine)
               menu_section := sanitize_input (pyOr menuLine "99-Misc")
               maintainer := sanitize_input (pyOr maintLine "Serenium Team")
               email := p.1 }
  | _ => none

/-- `SereniumBuilder.get_user_input` on a fresh default `PackageConfig`,
as a function of the raw stdin lines. -/
def get_user_input (inputs : List String) : Option PackageConfig :=
  (askName inputs).bind fun n =>
  (askVersion n.2).bind fun v =>
  match v.2 with
  | descLine :: ldLine :: rest1 =>
    let description := sanitize_input descLine
    let long_description := pyOr (sanitize_input ldLine) description
    (askType rest1).bind fun t =>
    let base : PackageConfig :=
      { PackageConfig.default with
          name := n.1, version := v.1, description := description,
          long_description := long_description, is_metapackage := t.1 }
    if t.1 then
      askFinal { base with tools := [], create_desktop := false } t.2
    else
      match t.2 with
      | toolsLine :: cdLine :: rest2 =>
        let tools := parseCommaList (sanitize_input toolsLine)
        if pyStripLower cdLine = "y" then
          match rest2 with
          | dnLine :: dcLine :: diLine :: dcatLine :: rest3 =>
            askFinal { base with
                tools := tools, create_desktop := true,
                desktop_name := sanitize_input dnLine,
                desktop_comment := sanitize_input dcLine,
                desktop_icon := sanitize_input (pyOr diLine "applications-system"),
                desktop_categories := sanitize_input (pyOr dcatLine "System") } rest3
          | _ => none
        else
          askFinal { base with tools := tools, create_desktop := false } rest2
      | _ => none
  | _ => none

/-! ## Config save / load (`save_config`, `load_config_from_file`)

The YAML layer is modelled as the identity on the key-value mapping: PyYAML's
`yaml.dump` / `yaml.safe_load` round-trip is faithful for the string, boolean
and list-of-string values that `save_config` writes. -/

/-- A YAML/JSON scalar or list value as stored in a config mapping. -/
inductive ConfigValue where
  | str (s : String)
  | bool (b : Bool)
  | list (l : List String)
deriving DecidableEq, Repr

/-- The mapping written by `SereniumBuilder.save_config` (note: `output_dir`
is not among the serialized keys). -/
def save_config_data (c : PackageConfig) : List (String × ConfigValue) :=
  [("name", .str c.name),
   ("version", .str c.version),
   ("description", .str c.description),
   ("long_description", .str c.long_description),
   ("is_metapackage", .bool c.is_metapackage),
   ("tools", .list c.tools),
   ("create_desktop", .bool c.create_desktop),
   ("desktop_name", .str c.desktop_name),
   ("desktop_comment", .str c.desktop_comment),
   ("desktop_icon", .str c.desktop_icon),
   ("desktop_categories", .str c.desktop_categories),
   ("dependencies", .list c.dependencies),
   ("menu_section", .str c.menu_section),
   ("maintainer", .str c.maintainer),
   ("email", .str c.email)]

/-- One `setattr(self.config, key, value)` step of `load_config_from_file`
(guarded by `hasattr`, so unknown keys leave the record unchanged; Python's
`setattr` is untyped, but every value the claims exercise is well-typed). -/
def setField (c : PackageConfig) (key : String) (v : ConfigValue) : PackageConfig :=
  match key, v with
  | "name", .str s => { c with name := s }
  | "version", .str s => { c with version := s }
  | "description", .str s => { c with description := s }
  | "long_description", .str s => { c with long_description := s }
  | "is_metapackage", .bool b => { c with is_metapackage := b }
  | "tools", .list l => { c with tools := l }
  | "create_desktop", .bool b => { c with create_desktop := b }
  | "desktop_name", .str s => { c with desktop_name := s }
  | "desktop_comment", .str s => { c with desktop_comment := s }
  | "desktop_icon", .str s => { c with desktop_icon := s }
  | "desktop_categories", .str s => { c with desktop_categories := s }
  | "dependencies", .list l => { c with dependencies := l }
  | "menu_section", .str s => { c with menu_section := s }
  | "maintainer", .str s => { c with maintainer := s }
  | "email", .str s => { c with email := s }
  | "output_dir", .str s => { c with output_dir := s }
  | _, _ => c

/-- The field-update loop of `load_config_from_file`:
`for key, value in data.items(): if hasattr(...): setattr(...)`. -/
def load_config_data (data : List (String × ConfigValue)) (c : PackageConfig) : PackageConfig :=
  data.foldl (fun a kv => setField a kv.1 kv.2) c

/-! ## Template Renderer / File Emitter

Each `create_*` method is modelled as the list of filesystem actions it
performs; rendered file contents are the exact template strings of the
source (the changelog timestamp is passed in as `now`). -/

/-- A filesystem effect performed by the emitter. -/
inductive FsAction where
  | mkdir (path : List String)
  | write (path : List String) (content : String)
  | chmod (path : List String) (mode : Nat)
  | symlink (path : List String) (target : String)
  | writeConfig (path : List String) (data : List (String × ConfigValue))
deriving DecidableEq, Repr

/-- Target directory name `f"{name}-{version}"`. -/
def package_dir (cfg : PackageConfig) : String := cfg.name ++ "-" ++ cfg.version

/-- `debian/changelog` content (with the `datetime.now()` timestamp passed in). -/
def changelog_content (cfg : PackageConfig) (now : String) : String :=
  cfg.name ++ " (" ++ cfg.version ++ ") unstable; urgency=medium\n\n  * Initial release\n  * "
    ++ cfg.description ++ "\n\n -- " ++ cfg.maintainer ++ " <" ++ cfg.email ++ ">  " ++ now ++ "\n"

/-- The `Depends:` field value: `', '.join(deps) if deps else '${{misc:Depends}}'`.
The fallback sits inside the f-string replacement field, where `${{...}}` is a
plain string literal, so the doubled braces are emitted literally. -/
def depends_value (cfg : PackageConfig) : String :=
  if cfg.dependencies.isEmpty then "$\x7b\x7bmisc:Depends\x7d\x7d"
  else String.intercalate ", " cfg.dependencies

/-- `debian/control` content; the metapackage and regular variants differ
only in the `Section:` line. -/
def create_control (cfg : PackageConfig) : String :=
  if cfg.is_metapackage then
    "Source: " ++ cfg.name
      ++ "\nSection: metapackages\nPriority: optional\nMaintainer: " ++ cfg.maintainer
      ++ " <" ++ cfg.email
      ++ ">\nBuild-Depends: debhelper-compat (= 13)\nStandards-Version: 4.6.0\n\nPackage: "
      ++ cfg.name ++ "\nArchitecture: all\nDepends: " ++ depends_value cfg
      ++ "\nDescription: " ++ cfg.description ++ "\n " ++ cfg.long_description ++ "\n"
  else
    "Source: " ++ cfg.name
      ++ "\nSection: misc\nPriority: optional\nMaintainer: " ++ cfg.maintainer
      ++ " <" ++ cfg.email
      ++ ">\nBuild-Depends: debhelper-compat (= 13)\nStandards-Version: 4.6.0\n\nPackage: "
      ++ cfg.name ++ "\nArchitecture: all\nDepends: " ++ depends_value cfg
      ++ "\nDescription: " ++ cfg.description ++ "\n " ++ cfg.long_description ++ "\n"

def rules_content : String := "#!/usr/bin/make -f\n%:\n\tdh $@\n"

/-- `SereniumBuilder.create_debian_structure`. -/
def create_debian_structure (cfg : PackageConfig) (now : String) : List FsAction :=
  [.mkdir [package_dir cfg, "debian"],
   .write [package_dir cfg, "debian", "changelog"] (changelog_content cfg now),
   .write [package_dir cfg, "debian", "control"] (create_control cfg),
   .write [package_dir cfg, "debian", "rules"] rules_content,
   .chmod [package_dir cfg, "debian", "rules"] 0o755,
   .write [package_dir cfg, "debian", "compat"] "13",
   .mkdir [package_dir cfg, "debian", "source"],
   .write [package_dir cfg, "debian", "source", "format"] "3.0 (native)"]

/-- One `echo '  - {tool}'` line per tool. -/
def tool_echo_lines (tools : List String) : String :=
  tools.foldl (fun acc t => acc ++ "echo \x27  - " ++ t ++ "\x27\n") ""

/-- `usr/bin/<name>` launcher script content. -/
def launcher_content (cfg : PackageConfig) : String :=
  "#!/bin/bash\n# " ++ cfg.name
    ++ " launcher\n# Generated by Serenium Package Builder\n\necho \"" ++ cfg.name
    ++ " - " ++ cfg.description ++ "\"\necho \"\"\necho \"Available tools:\"\n"
    ++ tool_echo_lines cfg.tools
    ++ "\necho \"\"\necho \"Use \x27dpkg -L serenium-toolkit\x27 to see all installed files.\"\n"

/-- `SereniumBuilder.create_package_files`: nothing for metapackages;
otherwise `usr/bin` plus a launcher when tools are present. -/
def create_package_files (cfg : PackageConfig) : List FsAction :=
  if cfg.is_metapackage then []
  else
    [.mkdir [package_dir cfg, "usr", "bin"]]
      ++ (if cfg.tools.isEmpty then []
          else [.write [package_dir cfg, "usr", "bin", cfg.name] (launcher_content cfg),
                .chmod [package_dir cfg, "usr", "bin", cfg.name] 0o755])

/-- `usr/share/applications/<name>.desktop` content. -/
def desktop_content (cfg : PackageConfig) : String :=
  "[Desktop Entry]\nName=" ++ cfg.desktop_name ++ "\nComment=" ++ cfg.desktop_comment
    ++ "\nExec=" ++ cfg.name ++ "\nIcon=" ++ cfg.desktop_icon
    ++ "\nTerminal=false\nType=Application\nCategories=" ++ cfg.desktop_categories
    ++ "\nStartupNotify=true\n"

/-- `SereniumBuilder.create_desktop_entry`. -/
def create_desktop_entry (cfg : PackageConfig) : List FsAction :=
  if !cfg.create_desktop then []
  else
    [.mkdir [package_dir cfg, "usr", "share", "applications"],
     .write [package_dir cfg, "usr", "share", "applications", cfg.name ++ ".desktop"]
       (desktop_content cfg)]

/-- The menu directory `usr/share/serenium-menu/applications/<menu_section>`. -/
def menu_dir (cfg : PackageConfig) : List String :=
  [package_dir cfg, "usr", "share", "serenium-menu", "applications", cfg.menu_section]

/-- `SereniumBuilder.create_menu_structure`: the directory is created
unconditionally; the symlink only when `create_desktop` is set. -/
def create_menu_structure (cfg : PackageConfig) : List FsAction :=
  [.mkdir (menu_dir cfg)]
    ++ (if cfg.create_desktop then
          [.symlink (menu_dir cfg ++ [cfg.name ++ ".desktop"])
            ("../../../applications/" ++ cfg.name ++ ".desktop")]
        else [])

/-- `build.sh` content. -/
def build_script_content (cfg : PackageConfig) : String :=
  "#!/bin/bash\n# Build script for " ++ cfg.name
    ++ "\n# Generated by Serenium Package Builder\n\nset -e\n\nPACKAGE_NAME=\"" ++ cfg.name
    ++ "\"\nPACKAGE_VERSION=\"" ++ cfg.version
    ++ "\"\n\necho \"Building $PACKAGE_NAME version $PACKAGE_VERSION...\"\n\n# Clean previous builds\nrm -f ../$\x7bPACKAGE_NAME\x7d_*.deb ../$\x7bPACKAGE_NAME\x7d_*.tar.gz ../$\x7bPACKAGE_NAME\x7d_*.dsc ../$\x7bPACKAGE_NAME\x7d_*.changes\n\n# Build the package\ndpkg-buildpackage -us -uc -b\n\necho \"Build complete!\"\necho \"Package file: ../$\x7bPACKAGE_NAME\x7d_$\x7bPACKAGE_VERSION\x7d_all.deb\"\necho \"\"\necho \"To install:\"\necho \"  sudo dpkg -i ../$\x7bPACKAGE_NAME\x7d_$\x7bPACKAGE_VERSION\x7d_all.deb\"\necho \"  sudo apt-get install -f  # Fix dependencies if needed\"\n"

/-- `SereniumBuilder.create_build_script`. -/
def create_build_script (cfg : PackageConfig) : List FsAction :=
  [.write [package_dir cfg, "build.sh"] (build_script_content cfg),
   .chmod [package_dir cfg, "build.sh"] 0o755]

/-- One `- {item}` bullet line per list element (tools / dependencies in the
README). -/
def bullet_lines (items : List String) : String :=
  items.foldl (fun acc t => acc ++ "- " ++ t ++ "\n") ""

/-- `README.md` content. -/
def create_readme (cfg : PackageConfig) : String :=
  "# " ++ cfg.name ++ "\n\n" ++ cfg.description
    ++ "\n\n## Package Information\n- **Version**: " ++ cfg.version
    ++ "\n- **Type**: " ++ (if cfg.is_metapackage then "Metapackage" else "Regular Package")
    ++ "\n- **Maintainer**: " ++ cfg.maintainer ++ " <" ++ cfg.email ++ ">\n\n"
    ++ (if cfg.tools.isEmpty then ""
        else "## Included Tools\n" ++ bullet_lines cfg.tools ++ "\n")
    ++ (if cfg.dependencies.isEmpty then ""
        else "## Dependencies\n" ++ bullet_lines cfg.dependencies ++ "\n")
    ++ "## Building\n\nTo build this package:\n\n```bash\n./build.sh\n```\n\n## Installation\n\nTo install the built package:\n\n```bash\nsudo dpkg -i ../"
    ++ cfg.name ++ "_" ++ cfg.version
    ++ "_all.deb\nsudo apt-get install -f  # Fix dependencies if needed\n```\n\n## Removal\n\nTo remove this package:\n\n```bash\nsudo apt-get remove "
    ++ cfg.name ++ "\n```\n\n---\nGenerated by Serenium Package Builder\n"

def create_readme_actions (cfg : PackageConfig) : List FsAction :=
  [.write [package_dir cfg, "README.md"] (create_readme cfg)]

def save_config_actions (cfg : PackageConfig) : List FsAction :=
  [.writeConfig [package_dir cfg, "serenium-config.yaml"] (save_config_data cfg)]

/-! ## Build Orchestrator (`build_package`) -/

/-- An action of the orchestrator: a progress report
(`steps_completed` after increment, `steps_total`, step label), the recursive
delete of a pre-existing target directory, or an emitter action. -/
inductive BuildAction where
  | progressUpdate (completed total : Nat) (step : String)
  | removeTree (path : List String)
  | fs (a : FsAction)
deriving DecidableEq, Repr

/-- `self.steps_total = 7` from `SereniumBuilder.__init__`. -/
def steps_total : Nat := 7

/-- The eight `_update_progress` steps of `build_package`, in source order,
each with the emitter actions it triggers. -/
def emission_steps (cfg : PackageConfig) (now : String) : List (String × List FsAction) :=
  [("Creating Debian packaging structure", create_debian_structure cfg now),
   ("Creating package files", create_package_files cfg),
   ("Creating desktop entry", create_desktop_entry cfg),
   ("Setting up menu structure", create_menu_structure cfg),
   ("Creating build script", create_build_script cfg),
   ("Generating documentation", create_readme_actions cfg),
   ("Saving configuration", save_config_actions cfg),
   ("Finalizing package", [])]

/-- Run the steps, threading `steps_completed` through `_update_progress`
(which increments it before reporting). -/
def run_steps (completed total : Nat) : List (String × List FsAction) → List BuildAction
  | [] => []
  | (msg, acts) :: rest =>
    BuildAction.progressUpdate (completed + 1) total msg
      :: (acts.map BuildAction.fs ++ run_steps (completed + 1) total rest)

/-- `SereniumBuilder.build_package` on a builder fresh from `__init__`
(`steps_completed = 0`): `dirExists` tells whether the target directory
already exists, `response` is the raw overwrite-confirmation line (read only
in that case), `now` the changelog timestamp.  A non-affirmative confirmation
returns with an empty action trace. -/
def build_package (cfg : PackageConfig) (dirExists : Bool) (response : String)
    (now : String) : List BuildAction :=
  if dirExists && !(pyStripLower response = "y") then []
  else
    (if dirExists then [BuildAction.removeTree [package_dir cfg]] else [])
      ++ BuildAction.fs (FsAction.mkdir [package_dir cfg])
        :: run_steps 0 steps_total (emission_steps cfg now)

/-- The step-counter values reported by a trace, in order. -/
def progressValues (trace : List BuildAction) : List Nat :=
  trace.filterMap fun a =>
    match a with
    | .progressUpdate n _ _ => some n
    | _ => none

/-! ## Substring machinery -/

/-- The haystack starts with the needle (second argument). -/
def beginsWith : List Char → List Char → Bool
  | _, [] => true
  | [], _ :: _ => false
  | c :: cs, d :: ds => c = d && beginsWith cs ds

/-- `needle` occurs contiguously somewhere in the second argument. -/
def subOf (needle : List Char) : List Char → Bool
  | [] => beginsWith [] needle
  | hay@(_ :: rest) => beginsWith hay needle || subOf needle rest

/-- Python's `needle in hay` on strings. -/
def strContainsB (hay needle : String) : Bool := subOf needle.data hay.data

/-- Strip with predicate `p` from both ends (the shape of `pyStripList`). -/
def stripBoth (p : Char → Bool) (l : List Char) : List Char :=
  ((l.dropWhile p).reverse.dropWhile p).reverse

/-! ## Concrete fixtures used by counterexamples and witnesses -/

/-- A record with the dependency list `["python3", "git"]` of the spec's
example and defaults elsewhere. -/
def cfgDeps : PackageConfig := { PackageConfig.default with dependencies := ["python3", "git"] }

/-- A metapackage record with empty dependencies (the defaults). -/
def cfgMetaDefault : PackageConfig := { PackageConfig.default with is_metapackage := true }

/-- The record produced by the file-load path from a config file declaring a
metapackage together with tools and a desktop entry. -/
def loadedMeta : PackageConfig :=
  load_config_data
    [("name", .str "pkg"), ("description", .str "d"),
     ("is_metapackage", .bool true), ("tools", .list ["nmap"]),
     ("create_desktop", .bool true)] PackageConfig.default

/-- A record whose `output_dir` is not the dataclass default. -/
def cfgOutDir : PackageConfig := { PackageConfig.default with output_dir := "/tmp" }

/-- Interactive stdin lines for a metapackage run with description "d". -/
def metaRunInputs : List String :=
  ["metapkg", "1.0.0", "d", "", "2", "", "", "", ""]

/-- The record the interactive path produces on `metaRunInputs`. -/
def metaRunResult : PackageConfig :=
  { name := "metapkg", version := "1.0.0", description := "d", long_description := "d",
    is_metapackage := true, tools := [], create_desktop := false, desktop_name := "",
    desktop_comment := "", desktop_icon := "applications-system",
    desktop_categories := "System", dependencies := [], menu_section := "99-Misc",
    maintainer := "Serenium Team", email := "team@serenium.org", output_dir := "." }

/-- Interactive stdin lines for a metapackage run where both description
prompts are answered with an empty line. -/
def emptyDescInputs : List String :=
  ["pkg", "1.0.0", "", "", "2", "", "", "", ""]

/-- The record the interactive path produces on `emptyDescInputs`. -/
def emptyDescResult : PackageConfig :=
  { name := "pkg", version := "1.0.0", description := "", long_description := "",
    is_metapackage := true, tools := [], create_desktop := false, desktop_name := "",
    desktop_comment := "", desktop_icon := "applications-system",
    desktop_categories := "System", dependencies := [], menu_section := "99-Misc",
    maintainer := "Serenium Team", email := "team@serenium.org", output_dir := "." }

theorem beginsWith_append (n b : List Char) : beginsWith (n ++ b) n = true := by
  induction n with
  | nil => cases b <;> rfl
  | cons c cs ih => simp [beginsWith, ih]

theorem subOf_cons (n : List Char) (c : Char) (l : List Char) :
    subOf n (c :: l) = (beginsWith (c :: l) n || subOf n l) := rfl

theorem subOf_self_append (n b : List Char) : subOf n (n ++ b) = true := by
  cases n with
  | nil =>
    cases b with
    | nil => rfl
    | cons c t => simp [subOf, beginsWith]
  | cons c cs =>
    have h := beginsWith_append (c :: cs) b
    rw [List.cons_append] at h
    rw [List.cons_append, subOf_cons, h, Bool.true_or]

theorem subOf_append_right (n x l : List Char) (h : subOf n l = true) :
    subOf n (x ++ l) = true := by
  induction x with
  | nil => simpa using h
  | cons c cs ih => simp [subOf_cons, ih]

/-! ## Lemmas about Python `str.strip()` -/

theorem pyStripList_eq_stripBoth (l : List Char) : pyStripList l = stripBoth pyIsSpace l := rfl

theorem dw_length_le (p : Char → Bool) (l : List Char) :
    (l.dropWhile p).length ≤ l.length := by
  induction l with
  | nil => simp
  | cons c t ih =>
    rw [List.dropWhile_cons]
    split
    · exact Nat.le_trans ih (Nat.le_succ _)
    · exact Nat.le_refl _

theorem mem_of_mem_dw {p : Char → Bool} {x : Char} {l : List Char}
    (h : x ∈ l.dropWhile p) : x ∈ l := by
  induction l with
  | nil => simp at h
  | cons c t ih =>
    rw [List.dropWhile_cons] at h
    by_cases hp : p c = true
    · simp only [hp, if_true] at h
      exact List.mem_cons_of_mem _ (ih h)
    · simpa [hp] using h

/-- If a list is already left-stripped, stripping its right-stripped form on
the left is a no-op. -/
theorem dw_of_dw_eq_self {p : Char → Bool} {x : List Char} (h : x.dropWhile p = x) :
    ((x.reverse.dropWhile p).reverse).dropWhile p = (x.reverse.dropWhile p).reverse := by
  cases x with
  | nil => simp
  | cons c t =>
    have hpc : p c = false := by
      rw [List.dropWhile_cons] at h
      by_cases hp : p c = true
      · rw [if_pos hp] at h
        have hle := dw_length_le p t
        rw [h] at hle
        simp at hle
      · simpa using hp
    rw [List.reverse_cons, List.dropWhile_append]
    split
    · simp [List.dropWhile_cons, hpc]
    · simp [List.dropWhile_cons, hpc]

theorem stripBoth_idem (p : Char → Bool) (l : List Char) :
    stripBoth p (stripBoth p l) = stripBoth p l := by
  unfold stripBoth
  rw [dw_of_dw_eq_self (List.dropWhile_idempotent p l),
    List.reverse_reverse, List.dropWhile_idempotent]

theorem mem_stripBoth {p : Char → Bool} {x : Char} {l : List Char}
    (h : x ∈ stripBoth p l) : x ∈ l := by
  unfold stripBoth at h
  rw [List.mem_reverse] at h
  exact mem_of_mem_dw (List.mem_reverse.mp (mem_of_mem_dw h))

/-- The six successive `str.replace(char, '')` calls amount to one filter
against the whole dangerous-character list. -/
theorem foldl_remove_eq_filter (cs : List Char) : ∀ l : List Char,
    cs.foldl (fun t c => t.filter (fun d => d ≠ c)) l
      = l.filter (fun d => !(cs.contains d)) := by
  induction cs with
  | nil =>
    intro l
    simp
  | cons c cs ih =>
    intro l
    rw [List.foldl_cons, ih, List.filter_filter]
    apply List.filter_congr
    intro x _
    by_cases hxc : x = c
    · subst hxc
      simp
    · simp [hxc]

theorem sanitize_eq_filter_strip (s : String) :
    sanitize_input s
      = ⟨stripBoth pyIsSpace (s.data.filter (fun c => !(dangerous_chars.contains c)))⟩ := by
  unfold sanitize_input
  by_cases hs : s = ""
  · subst hs
    rfl
  · rw [if_neg hs]
    unfold pyStripStr
    rw [show (⟨dangerous_chars.foldl (fun t c => t.filter (fun d => d ≠ c)) s.data⟩ :
          String).data = dangerous_chars.foldl (fun t c => t.filter (fun d => d ≠ c)) s.data
        from rfl]
    rw [foldl_remove_eq_filter]
    rfl

/-- C9: `sanitize_input` removes every occurrence of the control bytes
0x00–0x05 anywhere in the string and then trims leading and trailing
whitespace, and it is idempotent: sanitizing twice equals sanitizing once. -/
theorem C9_sanitize_removes_trims_and_idem (s : String) :
    sanitize_input s
      = ⟨pyStripList (s.data.filter (fun c => !(dangerous_chars.contains c)))⟩
    ∧ sanitize_input (sanitize_input s) = sanitize_input s := by
  refine ⟨?_, ?_⟩
  · rw [pyStripList_eq_stripBoth]
    exact sanitize_eq_filter_strip s
  · rw [sanitize_eq_filter_strip s, sanitize_eq_filter_strip]
    have hfix : (stripBoth pyIsSpace
          (s.data.filter (fun c => !(dangerous_chars.contains c)))).filter
            (fun c => !(dangerous_chars.contains c))
        = stripBoth pyIsSpace (s.data.filter (fun c => !(dangerous_chars.contains c))) :=
      List.filter_eq_self.mpr (fun a ha => (List.mem_filter.mp (mem_stripBoth ha)).2)
    rw [show (⟨stripBoth pyIsSpace (s.data.filter (fun c => !(dangerous_chars.contains c)))⟩ :
          String).data
        = stripBoth pyIsSpace (s.data.filter (fun c => !(dangerous_chars.contains c)))
        from rfl]
    rw [hfix, stripBoth_idem]

/-! ## Orchestrator lemmas -/

theorem progressValues_nil : progressValues [] = [] := rfl

theorem progressValues_cons_fs (a : FsAction) (l : List BuildAction) :
    progressValues (.fs a :: l) = progressValues l := by
  simp [progressValues, List.filterMap_cons]

theorem progressValues_cons_progress (n t : Nat) (m : String) (l : List BuildAction) :
    progressValues (.progressUpdate n t m :: l) = n :: progressValues l := by
  simp [progressValues, List.filterMap_cons]

theorem progressValues_append (a b : List BuildAction) :
    progressValues (a ++ b) = progressValues a ++ progressValues b := by
  simp [progressValues, List.filterMap_append]

theorem progressValues_map_fs (acts : List FsAction) :
    progressValues (acts.map BuildAction.fs) = [] := by
  induction acts with
  | nil => rfl
  | cons a t ih => rw [List.map_cons, progressValues_cons_fs, ih]

/-- C3: when the target directory exists and the stripped, lowered
overwrite-confirmation is anything but "y", `build_package` returns with an
empty action trace: nothing is deleted, written or modified, and no
exception can arise on that path. -/
theorem C3_non_affirmative_overwrite_aborts (cfg : PackageConfig) (response now : String)
    (h : pyStripLower response ≠ "y") :
    build_package cfg true response now = [] := by
  simp [build_package, h]

theorem C3_non_affirmative_overwrite_aborts_witness :
    build_package PackageConfig.default true "n" "Mon, 01 Jan 2024 00:00:00 " = [] :=
  C3_non_affirmative_overwrite_aborts PackageConfig.default "n"
    "Mon, 01 Jan 2024 00:00:00 " (by decide)

/-- C5: a full run of `build_package` reports the step counters 1..8 against
the declared `steps_total = 7`, so the counter does start at 0 and increase
by exactly 1 per reported step, but its final value 8 exceeds the fixed
total of 7 (the claim's bound is violated by the eighth, "Finalizing
package", report). -/
theorem C5_progress_counter_reaches_eight (cfg : PackageConfig) (now : String) :
    progressValues (build_package cfg false "" now) = [1, 2, 3, 4, 5, 6, 7, 8]
    ∧ steps_total = 7 := by
  refine ⟨?_, rfl⟩
  simp [build_package, run_steps, emission_steps, progressValues_cons_fs,
    progressValues_cons_progress, progressValues_append, progressValues_map_fs,
    progressValues_nil]

/-- C10: whenever the build proceeds (no pre-existing target directory, or
an affirmative overwrite confirmation), the emitter creates the menu
directory `usr/share/serenium-menu/applications/<menu_section>` for every
configuration — even a metapackage with no desktop entry — while the
`<name>.desktop` symlink inside it is present in the trace exactly when
`create_desktop` is set. -/
theorem C10_menu_dir_created_unconditionally (cfg : PackageConfig) (dirExists : Bool)
    (response now : String) (h : dirExists = false ∨ pyStripLower response = "y") :
    BuildAction.fs (FsAction.mkdir (menu_dir cfg)) ∈ build_package cfg dirExists response now
    ∧ (BuildAction.fs (FsAction.symlink (menu_dir cfg ++ [cfg.name ++ ".desktop"])
          ("../../../applications/" ++ cfg.name ++ ".desktop"))
        ∈ build_package cfg dirExists response now
      ↔ cfg.create_desktop = true) := by
  have hcond : (dirExists && !(pyStripLower response = "y")) = false := by
    rcases h with h | h
    · rw [h]; rfl
    · simp [h]
  cases hcd : cfg.create_desktop <;> cases hmp : cfg.is_metapackage <;>
    cases hte : cfg.tools.isEmpty <;> cases hde : dirExists <;>
    simp_all [build_package, run_steps, emission_steps, create_debian_structure,
      create_package_files, create_desktop_entry, create_menu_structure,
      create_build_script, create_readme_actions, save_config_actions, menu_dir]

theorem C10_menu_dir_created_unconditionally_witness :
    BuildAction.fs (FsAction.mkdir (menu_dir cfgMetaDefault))
        ∈ build_package cfgMetaDefault false "" "TS"
    ∧ (BuildAction.fs (FsAction.symlink (menu_dir cfgMetaDefault ++ [cfgMetaDefault.name ++ ".desktop"])
          ("../../../applications/" ++ cfgMetaDefault.name ++ ".desktop"))
        ∈ build_package cfgMetaDefault false "" "TS"
      ↔ cfgMetaDefault.create_desktop = true) :=
  C10_menu_dir_created_unconditionally cfgMetaDefault false "" "TS" (Or.inl rfl)

set_option maxRecDepth 40000

/-- C4: with an empty dependency list, both control-file variants carry a
`Depends:` line whose value is the doubled-brace text `${{misc:Depends}}` —
the `'${{misc:Depends}}'` literal sits inside the f-string replacement
field, where `{{` is not an escape — and not the single-brace substitution
variable `${misc:Depends}` the claim requires; with a non-empty list the
line is the dependencies joined by ", " as claimed. -/
theorem C4_depends_placeholder_has_doubled_braces :
    strContainsB (create_control cfgMetaDefault)
      ("Depends: $\x7b\x7bmisc:Depends\x7d\x7d\n") = true
    ∧ strContainsB (create_control PackageConfig.default)
      ("Depends: $\x7b\x7bmisc:Depends\x7d\x7d\n") = true
    ∧ strContainsB (create_control cfgMetaDefault)
      ("Depends: $\x7bmisc:Depends\x7d\n") = false
    ∧ strContainsB (create_control PackageConfig.default)
      ("Depends: $\x7bmisc:Depends\x7d\n") = false
    ∧ strContainsB (create_control cfgDeps) "Depends: python3, git\n" = true := by
  refine ⟨by decide, by decide, by decide, by decide, by decide⟩

/-- C1 fails on the README: with dependencies `["python3", "git"]` the
control file does contain the joined substring `python3, git`, but the
README renders the dependencies as bullet lines and does not contain it. -/
theorem C1_readme_lacks_joined_dependencies :
    strContainsB (create_control cfgDeps) "python3, git" = true
    ∧ strContainsB (create_readme cfgDeps) "python3, git" = false := by
  refine ⟨by decide, by decide⟩

/-- C1 (amended): for every configuration with dependencies
`["python3", "git"]`, the generated control file contains the substring
`python3, git` joined by ", ", while the generated README lists the same
dependencies as the bullet lines `- python3` and `- git`. -/
theorem C1_control_joined_readme_bulleted (cfg : PackageConfig)
    (h : cfg.dependencies = ["python3", "git"]) :
    strContainsB (create_control cfg) "python3, git" = true
    ∧ strContainsB (create_readme cfg) "- python3\n- git\n" = true := by
  have hd : depends_value cfg = "python3, git" := by
    unfold depends_value
    rw [h]
    decide
  have hb : bullet_lines ["python3", "git"] = "- python3\n- git\n" := rfl
  constructor
  · unfold strContainsB create_control
    rw [hd]
    cases hm : cfg.is_metapackage <;>
      · simp only [Bool.false_eq_true, if_false, if_true, String.data_append,
          List.append_assoc]
        repeat' first
          | exact subOf_self_append _ _
          | apply subOf_append_right
  · unfold strContainsB create_readme
    rw [h, hb]
    simp only [List.isEmpty_cons, Bool.false_eq_true, if_false, String.data_append,
      List.append_assoc]
    repeat' first
      | exact subOf_self_append _ _
      | apply subOf_append_right

theorem C1_control_joined_readme_bulleted_witness :
    strContainsB (create_control cfgDeps) "python3, git" = true
    ∧ strContainsB (create_readme cfgDeps) "- python3\n- git\n" = true :=
  C1_control_joined_readme_bulleted cfgDeps rfl

/-- The shared prompt tail `askFinal` never touches the type, tools,
desktop or description fields of the partial record it is given. -/
theorem askFinal_fields {c : PackageConfig} {r : List String} {cfg : PackageConfig}
    (h : askFinal c r = some cfg) :
    cfg.is_metapackage = c.is_metapackage ∧ cfg.tools = c.tools
    ∧ cfg.create_desktop = c.create_desktop
    ∧ cfg.long_description = c.long_description ∧ cfg.description = c.description := by
  rcases r with _ | ⟨d, r⟩
  · simp [askFinal] at h
  rcases r with _ | ⟨m, r⟩
  · simp [askFinal] at h
  rcases r with _ | ⟨mt, r⟩
  · simp [askFinal] at h
  simp only [askFinal] at h
  cases he : askEmail r with
  | none => rw [he] at h; simp at h
  | some p =>
    rw [he] at h
    have h2 := Option.some.inj h
    subst h2
    simp

/-- Every record the interactive path finalizes satisfies the metapackage
invariant, and its long description is the Python `or`-fallback of the
long-description answer against the description. -/
theorem get_user_input_fields {inputs : List String} {cfg : PackageConfig}
    (h : get_user_input inputs = some cfg) :
    (cfg.is_metapackage = true → cfg.tools = [] ∧ cfg.create_desktop = false)
    ∧ ∃ x, cfg.long_description = pyOr x cfg.description := by
  unfold get_user_input at h
  cases hn : askName inputs with
  | none => rw [hn] at h; simp at h
  | some n =>
  rw [hn] at h
  simp only [Option.some_bind] at h
  cases hv : askVersion n.2 with
  | none => rw [hv] at h; simp at h
  | some v =>
  rw [hv] at h
  simp only [Option.some_bind] at h
  rcases hv2 : v.2 with _ | ⟨descLine, rest⟩
  · rw [hv2] at h; simp at h
  rcases hrest : rest with _ | ⟨ldLine, rest1⟩
  · rw [hv2, hrest] at h; simp at h
  rw [hv2, hrest] at h
  simp only at h
  cases ht : askType rest1 with
  | none => rw [ht] at h; simp at h
  | some t =>
  rw [ht] at h
  simp only [Option.some_bind] at h
  cases hb : t.1 with
  | true =>
    rw [hb] at h
    simp only [if_true] at h
    have hf := askFinal_fields h
    refine ⟨fun _ => ⟨hf.2.1, hf.2.2.1⟩, ?_⟩
    exact ⟨sanitize_input ldLine, by rw [hf.2.2.2.1, hf.2.2.2.2]⟩
  | false =>
    rw [hb] at h
    simp only [Bool.false_eq_true, if_false] at h
    rcases ht2 : t.2 with _ | ⟨toolsLine, rest2⟩
    · rw [ht2] at h; simp at h
    rcases hrest2 : rest2 with _ | ⟨cdLine, rest3⟩
    · rw [ht2, hrest2] at h; simp at h
    rw [ht2, hrest2] at h
    simp only at h
    by_cases hcd : pyStripLower cdLine = "y"
    · rw [if_pos hcd] at h
      rcases hrest3 : rest3 with _ | ⟨dnLine, rest4⟩
      · rw [hrest3] at h; simp at h
      rcases hrest4 : rest4 with _ | ⟨dcLine, rest5⟩
      · rw [hrest3, hrest4] at h; simp at h
      rcases hrest5 : rest5 with _ | ⟨diLine, rest6⟩
      · rw [hrest3, hrest4, hrest5] at h; simp at h
      rcases hrest6 : rest6 with _ | ⟨dcatLine, rest7⟩
      · rw [hrest3, hrest4, hrest5, hrest6] at h; simp at h
      rw [hrest3, hrest4, hrest5, hrest6] at h
      simp only at h
      have hf := askFinal_fields h
      refine ⟨fun hm => ?_, ?_⟩
      · rw [hf.1] at hm; simp at hm
      · exact ⟨sanitize_input ldLine, by rw [hf.2.2.2.1, hf.2.2.2.2]⟩
    · rw [if_neg hcd] at h
      have hf := askFinal_fields h
      refine ⟨fun hm => ?_, ?_⟩
      · rw [hf.1] at hm; simp at hm
      · exact ⟨sanitize_input ldLine, by rw [hf.2.2.2.1, hf.2.2.2.2]⟩

/-- C2 (amended): a record finalized by the interactive path satisfies the
invariant — `is_metapackage = true` forces `tools = []` and
`create_desktop = false`; the file-load path copies fields verbatim and does
not enforce it. -/
theorem C2_interactive_metapackage_invariant {inputs : List String} {cfg : PackageConfig}
    (h : get_user_input inputs = some cfg) (hm : cfg.is_metapackage = true) :
    cfg.tools = [] ∧ cfg.create_desktop = false :=
  (get_user_input_fields h).1 hm

/-- C2 fails on the file-load path: loading a config file that declares a
metapackage together with tools and a desktop entry yields a finalized
record with `is_metapackage = true` but non-empty `tools` and
`create_desktop = true`. -/
theorem C2_file_load_violates_invariant :
    loadedMeta.is_metapackage = true
    ∧ loadedMeta.tools = ["nmap"]
    ∧ loadedMeta.create_desktop = true := by
  refine ⟨rfl, rfl, rfl⟩

theorem C2_interactive_metapackage_invariant_witness :
    metaRunResult.tools = [] ∧ metaRunResult.create_desktop = false :=
  @C2_interactive_metapackage_invariant metaRunInputs metaRunResult (by rfl) rfl

/-- C6 (amended): on the interactive path a blank long-description answer
falls back to the description, so the finalized `long_description` is
non-empty whenever `description` is; when the description is itself empty
the fallback leaves `long_description` empty as well. -/
theorem C6_long_description_fallback {inputs : List String} {cfg : PackageConfig}
    (h : get_user_input inputs = some cfg) (hd : cfg.description ≠ "") :
    cfg.long_description ≠ "" := by
  obtain ⟨x, hx⟩ := (get_user_input_fields h).2
  rw [hx]
  unfold pyOr
  split
  · exact hd
  · next h0 => exact h0

/-- C6 fails as stated: an interactive run whose description and
long-description prompts are both answered with an empty line finalizes a
record with an empty `long_description`. -/
theorem C6_empty_description_gives_empty_long :
    get_user_input emptyDescInputs = some emptyDescResult
    ∧ emptyDescResult.long_description = "" := by
  refine ⟨by rfl, rfl⟩

theorem C6_long_description_fallback_witness :
    metaRunResult.long_description ≠ "" :=
  @C6_long_description_fallback metaRunInputs metaRunResult (by rfl) (by decide)

/-- C7 (amended): `validate_package_name` raises a validation error exactly
when the name is empty, longer than 255 characters, contains a character of
the forbidden set, starts with a non-alphanumeric character, or contains a
space; on every other name it succeeds returning the Python boolean `True`
(not the input string). -/
theorem C7_validate_name_rejects_iff (name : String) :
    (pyValidName name = false
      ↔ (name = "" ∨ 255 < name.length
          ∨ name.data.any (fun c => invalid_chars.contains c) = true
          ∨ name.data.headI.isAlphanum = false
          ∨ name.data.contains ' ' = true))
    ∧ (pyValidName name = true → validate_package_name name = .ok (.bool true)) := by
  unfold pyValidName validate_package_name
  split_ifs with h1 h2 h3 h4 h5 <;> simp_all

/-- C7 fails on its return-value clause: on a valid name the function
returns the boolean `True`, which is not the input string. -/
theorem C7_returns_bool_not_input :
    validate_package_name "abc" = .ok (.bool true)
    ∧ PyVal.bool true ≠ PyVal.str "abc" := by
  refine ⟨rfl, by decide⟩

theorem C7_validate_name_rejects_iff_witness :
    validate_package_name "abc" = .ok (.bool true) :=
  (C7_validate_name_rejects_iff "abc").2 rfl

/-- C8 (amended): re-loading the mapping written by `save_config` into a
fresh default record restores every serialized field — all fields except
`output_dir`, which `save_config` never writes and which therefore keeps the
fresh record's default ".". -/
theorem C8_roundtrip_restores_all_saved_fields (cfg : PackageConfig) :
    load_config_data (save_config_data cfg) PackageConfig.default
      = { cfg with output_dir := "." } := by
  cases cfg
  rfl

/-- C8 fails as stated for `output_dir`: a record whose `output_dir` was
non-default at serialization time does not round-trip to an equal record,
because `save_config` omits that field. -/
theorem C8_output_dir_not_round_tripped :
    load_config_data (save_config_data cfgOutDir) PackageConfig.default ≠ cfgOutDir
    ∧ cfgOutDir.output_dir ≠ PackageConfig.default.output_dir := by
  refine ⟨by decide, by decide⟩

end Serenium
